import Mathlib

/-!
Verification of `nvblox/evaluation/replica/replica_reconstruction.py`.

The script is a thin driver: it resolves the path to an external
reconstruction binary, checks that it exists, computes two output file
paths, prints four informational lines, launches the binary as a
subprocess, and returns the two output paths without inspecting the
subprocess result.

Embedding choices:
- Filesystem paths (`pathlib.Path`) become `FsPath`, a list of path
  components; `p / "name"` appends a component.
- The helper module `replica` (imported by the script but not part of
  this excerpt) is abstracted as a `ReplicaEnv` of uninterpreted
  functions, so all theorems quantify over every possible behaviour of
  those helpers.
- Side effects (helper calls, `print`, `subprocess.run`) are recorded
  in an event trace; `raise Exception` becomes an `Except.error`
  result.  The driver returns the trace together with the result.
-/

namespace Nvblox

/-- A filesystem path, as its ordered list of components
(the embedding of `pathlib.Path`). -/
structure FsPath where
  components : List String
deriving DecidableEq

/-- Embedding of `parent / name` on `pathlib.Path`: append one component. -/
def FsPath.div (p : FsPath) (s : String) : FsPath :=
  ⟨p.components ++ [s]⟩

/-- Embedding of `str(path)` / f-string formatting of a `pathlib.Path`. -/
def FsPath.toString (p : FsPath) : String :=
  String.intercalate "/" p.components

/-- Embedding of `pathlib.Path.name`: the final component. -/
def FsPath.name (p : FsPath) : String :=
  p.components.getLast?.getD ""

/-- Embedding of `pathlib.Path.parent`: drop the final component. -/
def FsPath.parent (p : FsPath) : FsPath :=
  ⟨p.components.dropLast⟩

/-- Splits a character list at the path separator, accumulating the
current component in reverse. -/
def split_slash_aux : List Char → List Char → List String
  | [], acc => [String.mk acc.reverse]
  | c :: cs, acc =>
    if c = '/' then String.mk acc.reverse :: split_slash_aux cs []
    else split_slash_aux cs (c :: acc)

/-- Splits a string at the path separator, the way `pathlib` cuts a
path string into parts. -/
def split_slash (s : String) : List String :=
  split_slash_aux s.data []

/-- Embedding of `Path(s)` applied to a command-line string: split on
the separator. -/
def pathOfString (s : String) : FsPath :=
  ⟨split_slash s⟩

/-- Whether a command-line token looks like a flag, i.e. begins with
two dashes (the `argparse` optional-argument marker). -/
def starts_dashdash (s : String) : Bool :=
  match s.data with
  | c1 :: c2 :: _ => c1 = '-' && c2 = '-'
  | _ => false

/-- Observable side effects of one run of the driver, in order:
calls into the `replica` helper module, lines written to standard
output, and the subprocess invocation (with the exit status the
external binary happened to return). -/
inductive Event where
  | getDatasetName (dataset_path : FsPath)
  | getDefaultBinaryPath
  | getOutputDir (dataset_name : String) (output_root_path : Option FsPath)
  | print (line : String)
  | runSubprocess (args : List String) (exit_code : Int)
deriving DecidableEq

/-- True exactly on the subprocess-invocation event. -/
def Event.isRun : Event → Bool
  | .runSubprocess _ _ => true
  | _ => false

/-- True exactly on the standard-output print event. -/
def Event.isPrint : Event → Bool
  | .print _ => true
  | _ => false

/-- True exactly on the output-directory-resolution helper call. -/
def Event.isGetOutputDir : Event → Bool
  | .getOutputDir _ _ => true
  | _ => false

/-- Whether a trace contains a subprocess invocation. -/
def has_run_event (tr : List Event) : Bool :=
  tr.any Event.isRun

/-- Whether a trace contains a print to standard output. -/
def has_print_event (tr : List Event) : Bool :=
  tr.any Event.isPrint

/-- Whether a trace contains a call to the output-directory helper. -/
def has_output_dir_event (tr : List Event) : Bool :=
  tr.any Event.isGetOutputDir

/-- Modelled from the spec: the `replica` helper module
(`get_dataset_name_from_dataset_root_path`, `get_output_dir`,
`get_default_fuse_replica_binary_path`) and the ambient filesystem and
subprocess behaviour are not part of this repository excerpt, so they
are abstracted as an environment of uninterpreted functions.  `is_file`
is the filesystem's answer to `Path.is_file()`, and `run_exit_code`
gives the exit status the external binary returns for a given argument
vector (the driver never looks at it). -/
structure ReplicaEnv where
  get_dataset_name_from_dataset_root_path : FsPath → String
  get_default_fuse_replica_binary_path : FsPath
  get_output_dir : String → Option FsPath → FsPath
  is_file : FsPath → Bool
  run_exit_code : List String → Int

/-- Events emitted while resolving the binary path: the default-location
lookup fires only when the caller omitted the binary path. -/
def resolution_events (fuse_replica_binary_path : Option FsPath) : List Event :=
  match fuse_replica_binary_path with
  | none => [Event.getDefaultBinaryPath]
  | some _ => []

/-- Embedding of `replica_reconstruction` (the whole function body,
lines 28-73 of the script).  Returns the event trace together with the
result: `Except.error msg` embeds `raise Exception(msg)`, and
`Except.ok` carries the returned `(mesh, esdf)` path pair. -/
def replica_reconstruction (env : ReplicaEnv) (dataset_path : FsPath)
    (output_root_path : Option FsPath) (fuse_replica_binary_path : Option FsPath) :
    List Event × Except String (FsPath × FsPath) :=
  let dataset_name := env.get_dataset_name_from_dataset_root_path dataset_path
  let fuse_replica_binary_path2 :=
    match fuse_replica_binary_path with
    | none => env.get_default_fuse_replica_binary_path
    | some p => p
  let events0 := Event.getDatasetName dataset_path :: resolution_events fuse_replica_binary_path
  if env.is_file fuse_replica_binary_path2 = false then
    (events0, Except.error ("Cant find binary at:" ++ fuse_replica_binary_path2.toString))
  else
    let output_dir := env.get_output_dir dataset_name output_root_path
    let reconstructed_mesh_path := output_dir.div "reconstructed_mesh.ply"
    let reconstructed_esdf_path := output_dir.div "reconstructed_esdf.ply"
    let mesh_output_path_flag := "--mesh_output_path"
    let esdf_output_path_flag := "--esdf_output_path"
    let run_args := [fuse_replica_binary_path2.toString, dataset_path.toString,
                     mesh_output_path_flag, reconstructed_mesh_path.toString,
                     esdf_output_path_flag, reconstructed_esdf_path.toString]
    (events0 ++
       [Event.getOutputDir dataset_name output_root_path,
        Event.print ("Running executable at:\t" ++ fuse_replica_binary_path2.toString),
        Event.print ("On the dataset at:\t" ++ dataset_path.toString),
        Event.print ("Outputting mesh at:\t" ++ reconstructed_mesh_path.toString),
        Event.print ("Outputting esdf at:\t" ++ reconstructed_esdf_path.toString),
        Event.runSubprocess run_args (env.run_exit_code run_args)],
     Except.ok (reconstructed_mesh_path, reconstructed_esdf_path))

/-- The executable path the driver ends up using: the caller-supplied
one, or the default-location lookup when it was omitted (lines 53-54). -/
def resolved_binary_path (env : ReplicaEnv) (fuse_replica_binary_path : Option FsPath) : FsPath :=
  fuse_replica_binary_path.getD env.get_default_fuse_replica_binary_path

/-- The output directory the driver computes for a call (line 58). -/
def computed_output_dir (env : ReplicaEnv) (dataset_path : FsPath)
    (output_root_path : Option FsPath) : FsPath :=
  env.get_output_dir (env.get_dataset_name_from_dataset_root_path dataset_path) output_root_path

/-- The mesh output path the driver computes for a call (line 59). -/
def computed_mesh_path (env : ReplicaEnv) (dataset_path : FsPath)
    (output_root_path : Option FsPath) : FsPath :=
  (computed_output_dir env dataset_path output_root_path).div "reconstructed_mesh.ply"

/-- The esdf output path the driver computes for a call (line 60). -/
def computed_esdf_path (env : ReplicaEnv) (dataset_path : FsPath)
    (output_root_path : Option FsPath) : FsPath :=
  (computed_output_dir env dataset_path output_root_path).div "reconstructed_esdf.ply"

/-- The argument vector handed to `subprocess.run` (lines 69-71):
executable path first, then the five arguments. -/
def run_args_of (env : ReplicaEnv) (dataset_path : FsPath)
    (output_root_path : Option FsPath) (fuse_replica_binary_path : Option FsPath) : List String :=
  [(resolved_binary_path env fuse_replica_binary_path).toString,
   dataset_path.toString,
   "--mesh_output_path", (computed_mesh_path env dataset_path output_root_path).toString,
   "--esdf_output_path", (computed_esdf_path env dataset_path output_root_path).toString]

/-- The three values the command-line entry point parses
(lines 82-90 of the script): `args.dataset_path`,
`args.output_root_path`, `args.fuse_replica_binary_path`. -/
structure Args where
  dataset_path : FsPath
  output_root_path : Option FsPath
  fuse_replica_binary_path : Option FsPath
deriving DecidableEq

/-- Modelled from the spec: the `argparse` parsing loop for the three
declared arguments (`argparse` itself is external library code).  One
pass over the tokens: each known flag consumes the next token as its
value, an unknown flag token is an error, a bare token fills the single
positional slot, a second bare token is an error, and parsing fails if
the required positional slot is still empty at the end. -/
def parse_args_go : List String → Option FsPath → Option FsPath → Option FsPath → Option Args
  | [], pos, out, bin =>
    match pos with
    | none => none
    | some d => some ⟨d, out, bin⟩
  | t :: rest, pos, out, bin =>
    if t = "--output_root_path" then
      match rest with
      | [] => none
      | v :: rest2 => parse_args_go rest2 pos (some (pathOfString v)) bin
    else if t = "--fuse_replica_binary_path" then
      match rest with
      | [] => none
      | v :: rest2 => parse_args_go rest2 pos out (some (pathOfString v))
    else if starts_dashdash t then none
    else
      match pos with
      | none => parse_args_go rest (some (pathOfString t)) out bin
      | some _ => none

/-- Modelled from the spec: `parser.parse_args()` over the declared
command-line surface, starting from empty slots. -/
def parse_args (argv : List String) : Option Args :=
  parse_args_go argv none none none

/-- Embedding of the `__main__` block (lines 76-93): parse the
arguments and hand the three parsed values to `replica_reconstruction`
in a single call; `none` embeds an `argparse` parse error. -/
def cli_main (env : ReplicaEnv) (argv : List String) :
    Option (List Event × Except String (FsPath × FsPath)) :=
  (parse_args argv).map fun a =>
    replica_reconstruction env a.dataset_path a.output_root_path a.fuse_replica_binary_path

/-- A sample dataset path used by the witness theorems. -/
def ds_sample : FsPath :=
  ⟨["replica", "office0"]⟩

/-- A constant exit-status function used by the witness theorems: the
external binary always fails with status 1. -/
def exit_code_one : List String → Int :=
  fun _ => 1

/-- A sample environment for the witness theorems: the helpers behave
plausibly, every path exists as a regular file, and the external binary
exits with status 1. -/
def env_ok : ReplicaEnv where
  get_dataset_name_from_dataset_root_path := fun p => p.name
  get_default_fuse_replica_binary_path := ⟨["nvblox", "build", "executables", "fuse_replica"]⟩
  get_output_dir := fun dataset_name root =>
    (root.getD ⟨["nvblox", "evaluation", "replica", "output"]⟩).div dataset_name
  is_file := fun _ => true
  run_exit_code := fun _ => 1

/-- A sample environment for the witness theorems in which no path
exists as a regular file, so the binary lookup always fails. -/
def env_missing : ReplicaEnv :=
  { env_ok with is_file := fun _ => false }

/-- When the resolved binary path is not a regular file, the driver
stops after the name lookup and binary resolution: the trace holds only
those helper calls and the result is the missing-binary error. -/
theorem rr_eq_of_is_file_false (env : ReplicaEnv) (ds : FsPath)
    (out bin : Option FsPath)
    (h : env.is_file (resolved_binary_path env bin) = false) :
    replica_reconstruction env ds out bin =
      (Event.getDatasetName ds :: resolution_events bin,
       Except.error ("Cant find binary at:" ++ (resolved_binary_path env bin).toString)) := by
  cases bin <;>
    simp_all [replica_reconstruction, resolved_binary_path, resolution_events]

/-- When the resolved binary path is a regular file, the driver runs to
the end: the trace is the helper calls, the four prints, and the
subprocess invocation, and the result is the computed path pair. -/
theorem rr_eq_of_is_file_true (env : ReplicaEnv) (ds : FsPath)
    (out bin : Option FsPath)
    (h : env.is_file (resolved_binary_path env bin) = true) :
    replica_reconstruction env ds out bin =
      ((Event.getDatasetName ds :: resolution_events bin) ++
         [Event.getOutputDir (env.get_dataset_name_from_dataset_root_path ds) out,
          Event.print ("Running executable at:\t" ++ (resolved_binary_path env bin).toString),
          Event.print ("On the dataset at:\t" ++ ds.toString),
          Event.print ("Outputting mesh at:\t" ++ (computed_mesh_path env ds out).toString),
          Event.print ("Outputting esdf at:\t" ++ (computed_esdf_path env ds out).toString),
          Event.runSubprocess (run_args_of env ds out bin)
            (env.run_exit_code (run_args_of env ds out bin))],
       Except.ok (computed_mesh_path env ds out, computed_esdf_path env ds out)) := by
  cases bin <;>
    simp_all [replica_reconstruction, resolved_binary_path, resolution_events,
      computed_mesh_path, computed_esdf_path, computed_output_dir, run_args_of]

/-- C1: whenever the resolved binary path exists as a regular file, the
call returns the two computed output paths with no error, for every
exit status the external binary may produce: the driver never inspects
the subprocess's exit status. -/
theorem claim_C1 (env : ReplicaEnv) (ds : FsPath) (out bin : Option FsPath)
    (c : List String → Int)
    (h : env.is_file (resolved_binary_path env bin) = true) :
    (replica_reconstruction { env with run_exit_code := c } ds out bin).2 =
      Except.ok (computed_mesh_path env ds out, computed_esdf_path env ds out) := by
  rw [rr_eq_of_is_file_true { env with run_exit_code := c } ds out bin h]
  rfl

/-- Witness for C1 at a concrete environment whose binary exists and
whose external binary exits with status 1. -/
theorem claim_C1_witness :
    env_ok.is_file (resolved_binary_path env_ok none) = true ∧
    (replica_reconstruction { env_ok with run_exit_code := exit_code_one }
        ds_sample none none).2 =
      Except.ok (computed_mesh_path env_ok ds_sample none,
                 computed_esdf_path env_ok ds_sample none) :=
  ⟨rfl, claim_C1 env_ok ds_sample none none exit_code_one rfl⟩

/-- C2: whenever the resolved binary path is not an existing regular
file, the call raises the missing-binary error and the trace contains
no subprocess invocation. -/
theorem claim_C2 (env : ReplicaEnv) (ds : FsPath) (out bin : Option FsPath)
    (h : env.is_file (resolved_binary_path env bin) = false) :
    (replica_reconstruction env ds out bin).2 =
      Except.error ("Cant find binary at:" ++ (resolved_binary_path env bin).toString) ∧
    has_run_event (replica_reconstruction env ds out bin).1 = false := by
  rw [rr_eq_of_is_file_false env ds out bin h]
  refine ⟨rfl, ?_⟩
  cases bin <;> simp [resolution_events, has_run_event, Event.isRun]

/-- Witness for C2 at a concrete environment without the binary. -/
theorem claim_C2_witness :
    env_missing.is_file (resolved_binary_path env_missing none) = false ∧
    ((replica_reconstruction env_missing ds_sample none none).2 =
       Except.error
         ("Cant find binary at:" ++ (resolved_binary_path env_missing none).toString) ∧
     has_run_event (replica_reconstruction env_missing ds_sample none none).1 = false) :=
  ⟨rfl, claim_C2 env_missing ds_sample none none rfl⟩

/-- C10: every raised missing-executable error carries the message
`Cant find binary at:` followed by the resolved binary path. -/
theorem claim_C10 (env : ReplicaEnv) (ds : FsPath) (out bin : Option FsPath)
    (msg : String)
    (h : (replica_reconstruction env ds out bin).2 = Except.error msg) :
    msg = "Cant find binary at:" ++ (resolved_binary_path env bin).toString := by
  cases hf : env.is_file (resolved_binary_path env bin) with
  | false =>
    rw [rr_eq_of_is_file_false env ds out bin hf] at h
    exact (Except.error.inj h).symm
  | true =>
    rw [rr_eq_of_is_file_true env ds out bin hf] at h
    exact absurd h (by simp)

/-- Witness for C10 at a concrete environment without the binary. -/
theorem claim_C10_witness :
    (replica_reconstruction env_missing ds_sample none none).2 =
      Except.error "Cant find binary at:nvblox/build/executables/fuse_replica" ∧
    "Cant find binary at:nvblox/build/executables/fuse_replica" =
      "Cant find binary at:" ++ (resolved_binary_path env_missing none).toString :=
  ⟨rfl, claim_C10 env_missing ds_sample none none _ rfl⟩

/-- C3: every returned pair consists of two distinct paths, the first
named `reconstructed_mesh.ply`, the second `reconstructed_esdf.ply`,
and both share the same parent output directory. -/
theorem claim_C3 (env : ReplicaEnv) (ds : FsPath) (out bin : Option FsPath)
    (pr : FsPath × FsPath)
    (h : (replica_reconstruction env ds out bin).2 = Except.ok pr) :
    pr.1 ≠ pr.2 ∧ pr.1.name = "reconstructed_mesh.ply" ∧
      pr.2.name = "reconstructed_esdf.ply" ∧ pr.1.parent = pr.2.parent := by
  cases hf : env.is_file (resolved_binary_path env bin) with
  | false =>
    rw [rr_eq_of_is_file_false env ds out bin hf] at h
    exact absurd h (by simp)
  | true =>
    rw [rr_eq_of_is_file_true env ds out bin hf] at h
    have hpr := Except.ok.inj h
    subst hpr
    refine ⟨?_, ?_, ?_, ?_⟩ <;>
      simp [computed_mesh_path, computed_esdf_path, FsPath.div, FsPath.name,
        FsPath.parent]

/-- Witness for C3 at a concrete environment whose binary exists. -/
theorem claim_C3_witness :
    (replica_reconstruction env_ok ds_sample none none).2 =
      Except.ok (computed_mesh_path env_ok ds_sample none,
                 computed_esdf_path env_ok ds_sample none) ∧
    (computed_mesh_path env_ok ds_sample none ≠ computed_esdf_path env_ok ds_sample none ∧
     (computed_mesh_path env_ok ds_sample none).name = "reconstructed_mesh.ply" ∧
     (computed_esdf_path env_ok ds_sample none).name = "reconstructed_esdf.ply" ∧
     (computed_mesh_path env_ok ds_sample none).parent =
       (computed_esdf_path env_ok ds_sample none).parent) :=
  ⟨rfl, claim_C3 env_ok ds_sample none none
    (computed_mesh_path env_ok ds_sample none, computed_esdf_path env_ok ds_sample none) rfl⟩

/-- C4: the returned result is a deterministic function of the inputs
and does not depend on the exit status of the external binary: two
calls whose environments differ only in the exit-status behaviour give
identical results. -/
theorem claim_C4 (env : ReplicaEnv) (ds : FsPath) (out bin : Option FsPath)
    (c1 c2 : List String → Int) :
    (replica_reconstruction { env with run_exit_code := c1 } ds out bin).2 =
    (replica_reconstruction { env with run_exit_code := c2 } ds out bin).2 := by
  cases hf : env.is_file (resolved_binary_path env bin) with
  | false =>
    rw [rr_eq_of_is_file_false { env with run_exit_code := c1 } ds out bin hf,
        rr_eq_of_is_file_false { env with run_exit_code := c2 } ds out bin hf]
    rfl
  | true =>
    rw [rr_eq_of_is_file_true { env with run_exit_code := c1 } ds out bin hf,
        rr_eq_of_is_file_true { env with run_exit_code := c2 } ds out bin hf]
    rfl

/-- C5: whenever the call reaches the process invocation, the trace
holds exactly one subprocess event, whose argument vector is the
executable path followed by exactly these five arguments in order:
dataset path, `--mesh_output_path`, mesh path, `--esdf_output_path`,
esdf path. -/
theorem claim_C5 (env : ReplicaEnv) (ds : FsPath) (out bin : Option FsPath)
    (h : env.is_file (resolved_binary_path env bin) = true) :
    List.filter Event.isRun (replica_reconstruction env ds out bin).1 =
      [Event.runSubprocess
        ((resolved_binary_path env bin).toString ::
          [ds.toString,
           "--mesh_output_path", (computed_mesh_path env ds out).toString,
           "--esdf_output_path", (computed_esdf_path env ds out).toString])
        (env.run_exit_code (run_args_of env ds out bin))] := by
  rw [rr_eq_of_is_file_true env ds out bin h]
  cases bin <;> simp [resolution_events, Event.isRun, run_args_of, List.filter]

/-- Witness for C5 at a concrete environment whose binary exists. -/
theorem claim_C5_witness :
    env_ok.is_file (resolved_binary_path env_ok none) = true ∧
    List.filter Event.isRun (replica_reconstruction env_ok ds_sample none none).1 =
      [Event.runSubprocess
        ((resolved_binary_path env_ok none).toString ::
          [ds_sample.toString,
           "--mesh_output_path", (computed_mesh_path env_ok ds_sample none).toString,
           "--esdf_output_path", (computed_esdf_path env_ok ds_sample none).toString])
        (env_ok.run_exit_code (run_args_of env_ok ds_sample none none))] :=
  ⟨rfl, claim_C5 env_ok ds_sample none none rfl⟩

/-- C6: with the binary path omitted, the driver behaves exactly as if
the default-location lookup result had been supplied, and the trace
records the default lookup; with a binary path supplied, the default
lookup never fires and the whole call is independent of what the
default lookup would have returned. -/
theorem claim_C6 (env : ReplicaEnv) (ds : FsPath) (out : Option FsPath)
    (p d : FsPath) :
    (replica_reconstruction env ds out none).2 =
      (replica_reconstruction env ds out
        (some env.get_default_fuse_replica_binary_path)).2 ∧
    Event.getDefaultBinaryPath ∈ (replica_reconstruction env ds out none).1 ∧
    Event.getDefaultBinaryPath ∉ (replica_reconstruction env ds out (some p)).1 ∧
    replica_reconstruction { env with get_default_fuse_replica_binary_path := d }
        ds out (some p) =
      replica_reconstruction env ds out (some p) := by
  refine ⟨?_, ?_, ?_, ?_⟩
  · cases hf : env.is_file env.get_default_fuse_replica_binary_path with
    | false =>
      rw [rr_eq_of_is_file_false env ds out none hf,
          rr_eq_of_is_file_false env ds out
            (some env.get_default_fuse_replica_binary_path) hf]
      rfl
    | true =>
      rw [rr_eq_of_is_file_true env ds out none hf,
          rr_eq_of_is_file_true env ds out
            (some env.get_default_fuse_replica_binary_path) hf]
  · cases hf : env.is_file (resolved_binary_path env none) with
    | false =>
      rw [rr_eq_of_is_file_false env ds out none hf]
      simp [resolution_events]
    | true =>
      rw [rr_eq_of_is_file_true env ds out none hf]
      simp [resolution_events]
  · cases hf : env.is_file (resolved_binary_path env (some p)) with
    | false =>
      rw [rr_eq_of_is_file_false env ds out (some p) hf]
      simp [resolution_events]
    | true =>
      rw [rr_eq_of_is_file_true env ds out (some p) hf]
      simp [resolution_events]
  · rfl

/-- C7: in every execution that launches the subprocess, the trace is a
prelude of helper calls containing no print and no subprocess event,
followed by exactly the four informational prints (binary path, dataset
path, mesh path, esdf path, in that order) and then the subprocess
invocation as the final event, so nothing is printed after the
invocation. -/
theorem claim_C7 (env : ReplicaEnv) (ds : FsPath) (out bin : Option FsPath)
    (h : env.is_file (resolved_binary_path env bin) = true) :
    (replica_reconstruction env ds out bin).1 =
      (Event.getDatasetName ds :: resolution_events bin ++
        [Event.getOutputDir (env.get_dataset_name_from_dataset_root_path ds) out]) ++
      [Event.print ("Running executable at:\t" ++ (resolved_binary_path env bin).toString),
       Event.print ("On the dataset at:\t" ++ ds.toString),
       Event.print ("Outputting mesh at:\t" ++ (computed_mesh_path env ds out).toString),
       Event.print ("Outputting esdf at:\t" ++ (computed_esdf_path env ds out).toString),
       Event.runSubprocess (run_args_of env ds out bin)
         (env.run_exit_code (run_args_of env ds out bin))] ∧
    has_print_event
      (Event.getDatasetName ds :: resolution_events bin ++
        [Event.getOutputDir (env.get_dataset_name_from_dataset_root_path ds) out]) = false ∧
    has_run_event
      (Event.getDatasetName ds :: resolution_events bin ++
        [Event.getOutputDir (env.get_dataset_name_from_dataset_root_path ds) out]) = false := by
  refine ⟨?_, ?_, ?_⟩
  · rw [rr_eq_of_is_file_true env ds out bin h]
    simp
  · cases bin <;> simp [resolution_events, has_print_event, Event.isPrint]
  · cases bin <;> simp [resolution_events, has_run_event, Event.isRun]

/-- Witness for C7 at a concrete environment whose binary exists. -/
theorem claim_C7_witness :
    env_ok.is_file (resolved_binary_path env_ok none) = true ∧
    ((replica_reconstruction env_ok ds_sample none none).1 =
      (Event.getDatasetName ds_sample :: resolution_events none ++
        [Event.getOutputDir
          (env_ok.get_dataset_name_from_dataset_root_path ds_sample) none]) ++
      [Event.print
         ("Running executable at:\t" ++ (resolved_binary_path env_ok none).toString),
       Event.print ("On the dataset at:\t" ++ ds_sample.toString),
       Event.print
         ("Outputting mesh at:\t" ++ (computed_mesh_path env_ok ds_sample none).toString),
       Event.print
         ("Outputting esdf at:\t" ++ (computed_esdf_path env_ok ds_sample none).toString),
       Event.runSubprocess (run_args_of env_ok ds_sample none none)
         (env_ok.run_exit_code (run_args_of env_ok ds_sample none none))] ∧
     has_print_event
       (Event.getDatasetName ds_sample :: resolution_events none ++
         [Event.getOutputDir
           (env_ok.get_dataset_name_from_dataset_root_path ds_sample) none]) = false ∧
     has_run_event
       (Event.getDatasetName ds_sample :: resolution_events none ++
         [Event.getOutputDir
           (env_ok.get_dataset_name_from_dataset_root_path ds_sample) none]) = false) :=
  ⟨rfl, claim_C7 env_ok ds_sample none none rfl⟩

/-- C9: when the resolved binary path is not a regular file, the
output-directory-resolution helper is never called: the trace holds no
such call, and the whole result is independent of the helper's
behaviour. -/
theorem claim_C9 (env : ReplicaEnv) (ds : FsPath) (out bin : Option FsPath)
    (g : String → Option FsPath → FsPath)
    (h : env.is_file (resolved_binary_path env bin) = false) :
    has_output_dir_event (replica_reconstruction env ds out bin).1 = false ∧
    replica_reconstruction { env with get_output_dir := g } ds out bin =
      replica_reconstruction env ds out bin := by
  refine ⟨?_, ?_⟩
  · rw [rr_eq_of_is_file_false env ds out bin h]
    cases bin <;> simp [resolution_events, has_output_dir_event, Event.isGetOutputDir]
  · rw [rr_eq_of_is_file_false { env with get_output_dir := g } ds out bin h,
        rr_eq_of_is_file_false env ds out bin h]
    rfl

/-- An output-directory helper used by the C9 witness: puts every
dataset's output directory directly under the dataset name. -/
def flat_output_dir : String → Option FsPath → FsPath :=
  fun dataset_name _ => ⟨[dataset_name]⟩

/-- Witness for C9 at a concrete environment without the binary. -/
theorem claim_C9_witness :
    env_missing.is_file (resolved_binary_path env_missing none) = false ∧
    (has_output_dir_event (replica_reconstruction env_missing ds_sample none none).1 = false ∧
     replica_reconstruction { env_missing with get_output_dir := flat_output_dir }
         ds_sample none none =
       replica_reconstruction env_missing ds_sample none none) :=
  ⟨rfl, claim_C9 env_missing ds_sample none none flat_output_dir rfl⟩

/-- A token that does not begin with two dashes is neither of the two
declared flags. -/
theorem ne_flag_of_not_dashdash (t : String) (h : starts_dashdash t = false) :
    t ≠ "--output_root_path" ∧ t ≠ "--fuse_replica_binary_path" := by
  refine ⟨?_, ?_⟩ <;> rintro rfl <;> exact absurd h (by decide)

/-- C8: the command-line surface accepts exactly one required
positional `dataset_path` and the two optional flags
`--output_root_path` and `--fuse_replica_binary_path`, all parsed as
paths — a lone positional parses, each flag fills its slot, the empty
line and a flag-only line are rejected for the missing positional, a
second positional is rejected, an undeclared flag is rejected — and on
every line that parses, the entry point makes the single call
`replica_reconstruction` with the three parsed values. -/
theorem claim_C8 (env : ReplicaEnv) (ds outv binv ds2 : String)
    (argv : List String) (a : Args)
    (h1 : starts_dashdash ds = false) (h2 : starts_dashdash ds2 = false)
    (hp : parse_args argv = some a) :
    parse_args [ds] = some ⟨pathOfString ds, none, none⟩ ∧
    parse_args ["--output_root_path", outv, ds] =
      some ⟨pathOfString ds, some (pathOfString outv), none⟩ ∧
    parse_args [ds, "--fuse_replica_binary_path", binv] =
      some ⟨pathOfString ds, none, some (pathOfString binv)⟩ ∧
    parse_args [ds, "--output_root_path", outv, "--fuse_replica_binary_path", binv] =
      some ⟨pathOfString ds, some (pathOfString outv), some (pathOfString binv)⟩ ∧
    parse_args [] = none ∧
    parse_args ["--output_root_path", outv] = none ∧
    parse_args [ds, ds2] = none ∧
    parse_args ["--bogus_flag", ds] = none ∧
    cli_main env argv =
      some (replica_reconstruction env a.dataset_path a.output_root_path
        a.fuse_replica_binary_path) := by
  obtain ⟨hd1, hd2⟩ := ne_flag_of_not_dashdash ds h1
  obtain ⟨he1, he2⟩ := ne_flag_of_not_dashdash ds2 h2
  have hb : starts_dashdash "--bogus_flag" = true := by decide
  have h9 : cli_main env argv =
      some (replica_reconstruction env a.dataset_path a.output_root_path
        a.fuse_replica_binary_path) := by
    unfold cli_main
    rw [hp]
    rfl
  refine ⟨?_, ?_, ?_, ?_, ?_, ?_, ?_, ?_, h9⟩ <;>
    simp [parse_args, parse_args_go, hd1, hd2, he1, he2, h1, h2, hb]

/-- Witness for C8 at concrete command lines. -/
theorem claim_C8_witness :
    starts_dashdash "office0" = false ∧
    starts_dashdash "scene1" = false ∧
    (parse_args ["office0"] = some ⟨pathOfString "office0", none, none⟩ ∧
     parse_args ["--output_root_path", "out", "office0"] =
       some ⟨pathOfString "office0", some (pathOfString "out"), none⟩ ∧
     parse_args ["office0", "--fuse_replica_binary_path", "bin"] =
       some ⟨pathOfString "office0", none, some (pathOfString "bin")⟩ ∧
     parse_args ["office0", "--output_root_path", "out", "--fuse_replica_binary_path", "bin"] =
       some ⟨pathOfString "office0", some (pathOfString "out"), some (pathOfString "bin")⟩ ∧
     parse_args [] = none ∧
     parse_args ["--output_root_path", "out"] = none ∧
     parse_args ["office0", "scene1"] = none ∧
     parse_args ["--bogus_flag", "office0"] = none ∧
     cli_main env_ok ["office0"] =
       some (replica_reconstruction env_ok (pathOfString "office0") none none)) :=
  ⟨rfl, rfl,
   claim_C8 env_ok "office0" "out" "bin" "scene1" ["office0"]
     ⟨pathOfString "office0", none, none⟩ rfl rfl rfl⟩

end Nvblox
